import Mathlib

/-!
Verification of the Coding-Guru repository: a shallow embedding of the
storage façade (server/storage.ts), the route layer (server/routes.ts)
and the AI façade (server/gemini.ts), with theorems settling the spec's
claims about ownership checks, frame conditions, idempotence, CRUD
coverage, and the AI call behaviour.
-/

/-! ## Data model

Rows of the three tables used by the storage façade.  The shared schema
file is not part of the sources, so row shapes carry the fields the
storage and route code actually touch; timestamps are naturals.
-/

/-- Row of the `users` table. -/
structure User where
  id : String
  email : Option String
  createdAt : Nat
  updatedAt : Nat
deriving Repr, DecidableEq

/-- Row of the `projects` table. -/
structure Project where
  id : String
  userId : String
  name : String
  description : Option String
  createdAt : Nat
  updatedAt : Nat
deriving Repr, DecidableEq

/-- Row of the `apiEndpoints` table. -/
structure ApiEndpoint where
  id : String
  projectId : String
  method : String
  path : String
  createdAt : Nat
  updatedAt : Nat
deriving Repr, DecidableEq

/-- The datastore: one list of rows per table. -/
structure DB where
  users : List User
  projects : List Project
  apiEndpoints : List ApiEndpoint
deriving Repr, DecidableEq

/-- Modelled from the spec: the `UpsertUser` insert type of the missing
shared schema file; the id plus the profile field the storage code
spreads into the row. -/
structure UpsertUser where
  id : String
  email : Option String
deriving Repr, DecidableEq

/-- Modelled from the spec: the `InsertProject` type produced by
`insertProjectSchema.parse` in the missing shared schema file: a
user-owned record with a name, owner id and optional description. -/
structure InsertProject where
  name : String
  userId : String
  description : Option String
deriving Repr, DecidableEq

/-- Modelled from the spec: `Partial<InsertProject>` — every field of
`InsertProject` optional; `none` means the field is absent from the
update. -/
structure ProjectPatch where
  name : Option String
  userId : Option String
  description : Option (Option String)
deriving Repr, DecidableEq

/-- Modelled from the spec: the `InsertApiEndpoint` type produced by
`insertApiEndpointSchema.parse`: a route description attached to a
project. -/
structure InsertApiEndpoint where
  projectId : String
  method : String
  path : String
deriving Repr, DecidableEq

/-! ## Storage façade (`server/storage.ts`, class `DatabaseStorage`)

Each method is a pure function over `DB`.  Reads return values; writes
return the new `DB` (and the `returning()` row where the code uses it).
`new Date()` in the update/upsert paths becomes an explicit `now`
argument.
-/

/-- `getUser`: first row of `users` whose id matches. -/
def getUser (db : DB) (id : String) : Option User :=
  (db.users.filter (fun u => u.id = id)).head?

/-- Row update applied by `upsertUser`'s `onConflictDoUpdate` set-clause:
spread of the insert data plus a fresh `updatedAt`. -/
def applyUpsert (u : User) (data : UpsertUser) (now : Nat) : User :=
  { u with email := data.email, updatedAt := now }

/-- `upsertUser`: insert the row, updating in place on an id conflict. -/
def upsertUser (db : DB) (data : UpsertUser) (now : Nat) : DB :=
  if db.users.any (fun u => u.id = data.id) then
    { db with users := db.users.map (fun u =>
        if u.id = data.id then applyUpsert u data now else u) }
  else
    { db with users := db.users ++
        [{ id := data.id, email := data.email, createdAt := now, updatedAt := now }] }

/-- Descending order on `updatedAt`, the `orderBy(desc(projects.updatedAt))`
of `getUserProjects`. -/
def projGE (a b : Project) : Prop := b.updatedAt ≤ a.updatedAt

instance : DecidableRel projGE := fun a b => Nat.decLe b.updatedAt a.updatedAt

instance : IsTotal Project projGE := ⟨fun a b => Nat.le_total b.updatedAt a.updatedAt⟩

instance : IsTrans Project projGE := ⟨fun _ _ _ h h' => Nat.le_trans h' h⟩

/-- `getUserProjects`: the projects of one user, ordered by `updatedAt`
descending. -/
def getUserProjects (db : DB) (userId : String) : List Project :=
  List.insertionSort projGE (db.projects.filter (fun p => p.userId = userId))

/-- `getProject`: first row of `projects` whose id matches. -/
def getProject (db : DB) (id : String) : Option Project :=
  (db.projects.filter (fun p => p.id = id)).head?

/-- `createProject`: insert a new row built from the validated insert
data; the database generates the id and timestamps (`newId`, `now`). -/
def createProject (db : DB) (p : InsertProject) (newId : String) (now : Nat) :
    Project × DB :=
  let row : Project :=
    { id := newId, userId := p.userId, name := p.name,
      description := p.description, createdAt := now, updatedAt := now }
  (row, { db with projects := db.projects ++ [row] })

/-- The set-clause of `updateProject`: spread of the patch over the row
plus a fresh `updatedAt`. -/
def applyPatch (p : Project) (u : ProjectPatch) (now : Nat) : Project :=
  { p with
    name := u.name.getD p.name
    userId := u.userId.getD p.userId
    description := (u.description.getD p.description)
    updatedAt := now }

/-- `updateProject`: update every `projects` row whose id matches,
returning the updated row. -/
def updateProject (db : DB) (id : String) (u : ProjectPatch) (now : Nat) :
    Option Project × DB :=
  let db' : DB := { db with projects := db.projects.map (fun p =>
      if p.id = id then applyPatch p u now else p) }
  ((db'.projects.filter (fun p => p.id = id)).head?, db')

/-- `deleteProject`: delete the `projects` rows whose id matches. -/
def deleteProject (db : DB) (id : String) : DB :=
  { db with projects := db.projects.filter (fun p => ¬ p.id = id) }

/-- Descending order on `createdAt`, the `orderBy(desc(apiEndpoints.createdAt))`
of `getProjectEndpoints`. -/
def epGE (a b : ApiEndpoint) : Prop := b.createdAt ≤ a.createdAt

instance : DecidableRel epGE := fun a b => Nat.decLe b.createdAt a.createdAt

instance : IsTotal ApiEndpoint epGE := ⟨fun a b => Nat.le_total b.createdAt a.createdAt⟩

instance : IsTrans ApiEndpoint epGE := ⟨fun _ _ _ h h' => Nat.le_trans h' h⟩

/-- `getProjectEndpoints`: the endpoints of one project, ordered by
`createdAt` descending. -/
def getProjectEndpoints (db : DB) (projectId : String) : List ApiEndpoint :=
  List.insertionSort epGE (db.apiEndpoints.filter (fun e => e.projectId = projectId))

/-- `createApiEndpoint`: insert a new endpoint row. -/
def createApiEndpoint (db : DB) (e : InsertApiEndpoint) (newId : String) (now : Nat) :
    ApiEndpoint × DB :=
  let row : ApiEndpoint :=
    { id := newId, projectId := e.projectId, method := e.method,
      path := e.path, createdAt := now, updatedAt := now }
  (row, { db with apiEndpoints := db.apiEndpoints ++ [row] })

/-- Modelled from the spec: `Partial<InsertApiEndpoint>` for
`updateApiEndpoint`. -/
structure EndpointPatch where
  projectId : Option String
  method : Option String
  path : Option String
deriving Repr, DecidableEq

/-- `updateApiEndpoint`: update every `apiEndpoints` row whose id
matches, returning the updated row. -/
def updateApiEndpoint (db : DB) (id : String) (u : EndpointPatch) (now : Nat) :
    Option ApiEndpoint × DB :=
  let db' : DB := { db with apiEndpoints := db.apiEndpoints.map (fun e =>
      if e.id = id then
        { e with
          projectId := u.projectId.getD e.projectId
          method := u.method.getD e.method
          path := u.path.getD e.path
          updatedAt := now }
      else e) }
  ((db'.apiEndpoints.filter (fun e => e.id = id)).head?, db')

/-- `deleteApiEndpoint`: delete the `apiEndpoints` rows whose id
matches. -/
def deleteApiEndpoint (db : DB) (id : String) : DB :=
  { db with apiEndpoints := db.apiEndpoints.filter (fun e => ¬ e.id = id) }

/-! ## Request bodies and schema validation

The shared schema file (`@shared/schema`) is not among the sources, so
the Zod schemas are modelled.  Body fields are JSON values so that
ill-typed fields exist and validation can fail.
-/

/-- A JSON field value as sent by a client. -/
inductive JsonValue
  | str (s : String)
  | num (n : Int)
  | boolean (b : Bool)
  | null
deriving Repr, DecidableEq

/-- Modelled from the spec: a client JSON body for a project; each field
is absent (`none`) or some JSON value. -/
structure ProjectBody where
  name : Option JsonValue
  userId : Option JsonValue
  description : Option JsonValue
deriving Repr, DecidableEq

/-- Modelled from the spec: a client JSON body for an API endpoint. -/
structure EndpointBody where
  projectId : Option JsonValue
  method : Option JsonValue
  path : Option JsonValue
deriving Repr, DecidableEq

/-- A required string field: present and a string, else validation
fails. -/
def reqStr : Option JsonValue → Option String
  | some (.str s) => some s
  | _ => none

/-- An optional nullable string field: absent or null parses to `none`,
a string parses to itself, anything else fails. -/
def optStr : Option JsonValue → Option (Option String)
  | none => some none
  | some .null => some none
  | some (.str s) => some (some s)
  | _ => none

/-- Modelled from the spec: `insertProjectSchema.parse` — name and owner
id required strings, description optional. `none` is a `ZodError`. -/
def parseInsertProject (b : ProjectBody) : Option InsertProject :=
  match reqStr b.name, reqStr b.userId, optStr b.description with
  | some n, some u, some d => some { name := n, userId := u, description := d }
  | _, _, _ => none

/-- A field of a partial schema: absent is fine, present must be a
string. -/
def patchStr : Option JsonValue → Option (Option String)
  | none => some none
  | some (.str s) => some (some s)
  | _ => none

/-- The description field of the partial schema: absent, null or a
string. -/
def patchDesc : Option JsonValue → Option (Option (Option String))
  | none => some none
  | some .null => some (some none)
  | some (.str s) => some (some (some s))
  | _ => none

/-- Modelled from the spec: the parse of the partial insert schema used
by PUT — each field optional, present fields must be well typed. -/
def parseProjectPatch (b : ProjectBody) : Option ProjectPatch :=
  match patchStr b.name, patchStr b.userId, patchDesc b.description with
  | some n, some u, some d => some { name := n, userId := u, description := d }
  | _, _, _ => none

/-- Modelled from the spec: `insertApiEndpointSchema.parse` — project
id, method and path required strings. -/
def parseInsertApiEndpoint (b : EndpointBody) : Option InsertApiEndpoint :=
  match reqStr b.projectId, reqStr b.method, reqStr b.path with
  | some pid, some m, some p => some { projectId := pid, method := m, path := p }
  | _, _, _ => none

/-- The spread of the POST /api/projects handler: whatever the client
sent, the userId field becomes the session user's id. -/
def withSessionUser (b : ProjectBody) (userId : String) : ProjectBody :=
  { b with userId := some (.str userId) }

/-- The spread of the POST endpoints handler: the projectId field
becomes the route parameter. -/
def withRouteProjectId (b : EndpointBody) (projectId : String) : EndpointBody :=
  { b with projectId := some (.str projectId) }

/-! ## Route layer (`server/routes.ts`, `registerRoutes`)

Each handler is a pure function from the session user id, route params,
body and datastore to a response, the new datastore and the list of
storage operations the handler performed, in order.
-/

/-- One call into the storage façade, as recorded by a handler. -/
inductive StorageOp
  | opGetUser (id : String)
  | opGetUserProjects (userId : String)
  | opGetProject (id : String)
  | opCreateProject (p : InsertProject)
  | opUpdateProject (id : String) (u : ProjectPatch)
  | opDeleteProject (id : String)
  | opGetProjectEndpoints (projectId : String)
  | opCreateApiEndpoint (e : InsertApiEndpoint)
deriving Repr, DecidableEq

/-- A JSON payload sent back by a handler. -/
inductive Payload
  | projectJson (p : Project)
  | projectListJson (ps : List Project)
  | maybeProjectJson (p : Option Project)
  | endpointJson (e : ApiEndpoint)
  | endpointListJson (es : List ApiEndpoint)
  | userJson (u : Option User)
deriving Repr, DecidableEq

/-- An HTTP response of the route layer. -/
inductive ApiResponse
  | ok (p : Payload)
  | created (p : Payload)
  | noContent
  | badRequest (message : String)
  | accessDenied
  | notFound (message : String)
deriving Repr, DecidableEq

/-- The HTTP status code of a response. -/
def ApiResponse.status : ApiResponse → Nat
  | .ok _ => 200
  | .created _ => 201
  | .noContent => 204
  | .badRequest _ => 400
  | .accessDenied => 403
  | .notFound _ => 404

/-- The `message` field of a response body, when there is one. -/
def ApiResponse.message : ApiResponse → Option String
  | .badRequest m => some m
  | .accessDenied => some "Access denied"
  | .notFound m => some m
  | _ => none

/-- Result of running one handler. -/
structure HandlerResult where
  resp : ApiResponse
  db : DB
  trace : List StorageOp
deriving Repr, DecidableEq

/-- GET /api/projects: the session user's projects. -/
def listProjectsHandler (sessionUserId : String) (db : DB) : HandlerResult :=
  ⟨.ok (.projectListJson (getUserProjects db sessionUserId)), db,
   [.opGetUserProjects sessionUserId]⟩

/-- GET /api/projects/:id: fetch, 404 when absent, 403 when not owned
by the session user. -/
def getProjectHandler (sessionUserId : String) (id : String) (db : DB) :
    HandlerResult :=
  match getProject db id with
  | none => ⟨.notFound "Project not found", db, [.opGetProject id]⟩
  | some project =>
    if project.userId ≠ sessionUserId then
      ⟨.accessDenied, db, [.opGetProject id]⟩
    else
      ⟨.ok (.projectJson project), db, [.opGetProject id]⟩

/-- POST /api/projects: override userId with the session user's id,
validate, create. -/
def postProjectHandler (sessionUserId : String) (body : ProjectBody)
    (newId : String) (now : Nat) (db : DB) : HandlerResult :=
  match parseInsertProject (withSessionUser body sessionUserId) with
  | none => ⟨.badRequest "Invalid project data", db, []⟩
  | some pd =>
    let r := createProject db pd newId now
    ⟨.created (.projectJson r.1), r.2, [.opCreateProject pd]⟩

/-- PUT /api/projects/:id: fetch, 404/403 checks, validate the partial
body, update. -/
def putProjectHandler (sessionUserId : String) (id : String)
    (body : ProjectBody) (now : Nat) (db : DB) : HandlerResult :=
  match getProject db id with
  | none => ⟨.notFound "Project not found", db, [.opGetProject id]⟩
  | some project =>
    if project.userId ≠ sessionUserId then
      ⟨.accessDenied, db, [.opGetProject id]⟩
    else
      match parseProjectPatch body with
      | none => ⟨.badRequest "Invalid project data", db, [.opGetProject id]⟩
      | some upd =>
        let r := updateProject db id upd now
        ⟨.ok (.maybeProjectJson r.1), r.2, [.opGetProject id, .opUpdateProject id upd]⟩

/-- DELETE /api/projects/:id: fetch, 404/403 checks, delete, 204. -/
def deleteProjectHandler (sessionUserId : String) (id : String) (db : DB) :
    HandlerResult :=
  match getProject db id with
  | none => ⟨.notFound "Project not found", db, [.opGetProject id]⟩
  | some project =>
    if project.userId ≠ sessionUserId then
      ⟨.accessDenied, db, [.opGetProject id]⟩
    else
      ⟨.noContent, deleteProject db id, [.opGetProject id, .opDeleteProject id]⟩

/-- GET /api/projects/:projectId/endpoints: ownership check on the
project, then list its endpoints. -/
def getEndpointsHandler (sessionUserId : String) (projectId : String)
    (db : DB) : HandlerResult :=
  match getProject db projectId with
  | none => ⟨.notFound "Project not found", db, [.opGetProject projectId]⟩
  | some project =>
    if project.userId ≠ sessionUserId then
      ⟨.accessDenied, db, [.opGetProject projectId]⟩
    else
      ⟨.ok (.endpointListJson (getProjectEndpoints db projectId)), db,
       [.opGetProject projectId, .opGetProjectEndpoints projectId]⟩

/-- POST /api/projects/:projectId/endpoints: ownership check, override
projectId from the route, validate, create. -/
def postEndpointHandler (sessionUserId : String) (projectId : String)
    (body : EndpointBody) (newId : String) (now : Nat) (db : DB) :
    HandlerResult :=
  match getProject db projectId with
  | none => ⟨.notFound "Project not found", db, [.opGetProject projectId]⟩
  | some project =>
    if project.userId ≠ sessionUserId then
      ⟨.accessDenied, db, [.opGetProject projectId]⟩
    else
      match parseInsertApiEndpoint (withRouteProjectId body projectId) with
      | none => ⟨.badRequest "Invalid endpoint data", db, [.opGetProject projectId]⟩
      | some ed =>
        let r := createApiEndpoint db ed newId now
        ⟨.created (.endpointJson r.1), r.2,
         [.opGetProject projectId, .opCreateApiEndpoint ed]⟩

/-- HTTP method of a registered route. -/
inductive Method
  | GET
  | POST
  | PUT
  | DELETE
deriving Repr, DecidableEq

/-- The routes `registerRoutes` installs, in source order: method and
path pattern of each app.get, app.post, app.put or app.delete call. -/
def registeredRoutes : List (Method × String) :=
  [ (.GET, "/api/auth/user"),
    (.GET, "/api/projects"),
    (.GET, "/api/projects/:id"),
    (.POST, "/api/projects"),
    (.PUT, "/api/projects/:id"),
    (.DELETE, "/api/projects/:id"),
    (.GET, "/api/projects/:projectId/endpoints"),
    (.POST, "/api/projects/:projectId/endpoints"),
    (.POST, "/api/ai/generate-component"),
    (.POST, "/api/ai/generate-backend") ]

/-! ## AI façade (`server/gemini.ts`)

Each exported function builds fixed prompt strings from its arguments
and calls `ai.models.generateContent`.  The external model is an oracle
`model : String → ModelOutcome` mapping the prompt to the call's
outcome; each function returns its result together with the list of
prompts for which a request was issued, in order.  `Promise.all` in
`generateBackendCode` issues all three requests up front.
-/

/-- Outcome of one `generateContent` call: the call throws, or returns
a response whose `text` field is absent or a string. -/
inductive ModelOutcome
  | failure
  | success (text : Option String)
deriving Repr, DecidableEq

/-- JavaScript `t || d` for a possibly-absent string: absent, null-ish
or empty means falsy, replaced by the default. -/
def textOr : Option String → String → String
  | none, d => d
  | some s, d => if s = "" then d else s

/-- The prompt template of `generateReactComponent`. -/
def reactComponentPrompt (componentType framework stylePreferences : String) : String :=
  s!"Generate a modern {componentType} component using {framework}. \n\nStyle preferences: {stylePreferences}\n\nRequirements:\n- Use TypeScript\n- Include proper TypeScript types\n- Use Tailwind CSS for styling\n- Make it responsive and accessible\n- Include proper JSX structure\n- Add data-testid attributes for interactive elements\n- Follow modern React best practices\n\nReturn only the component code, no explanations."

/-- `generateReactComponent`: one model request; a thrown call becomes
the error \"Failed to generate component with AI\", an empty response
text becomes a comment placeholder. -/
def generateReactComponent (model : String → ModelOutcome)
    (componentType framework stylePreferences : String) :
    Except String String × List String :=
  let prompt := reactComponentPrompt componentType framework stylePreferences
  match model prompt with
  | .failure => (.error "Failed to generate component with AI", [prompt])
  | .success t => (.ok (textOr t "// Error generating component"), [prompt])

/-- The feature flags of `generateBackendCode`. -/
structure BackendFeatures where
  userAuth : Bool
  crudOps : Bool
  fileUpload : Bool
  emailIntegration : Bool
deriving Repr, DecidableEq

/-- The `featuresText` of `generateBackendCode`: names of the enabled
features, in object order, joined by commas. -/
def featuresText (f : BackendFeatures) : String :=
  String.intercalate ", "
    ((if f.userAuth then ["userAuth"] else []) ++
     (if f.crudOps then ["crudOps"] else []) ++
     (if f.fileUpload then ["fileUpload"] else []) ++
     (if f.emailIntegration then ["emailIntegration"] else []))

/-- The routes prompt of `generateBackendCode`. -/
def backendRoutesPrompt (database framework ft : String) : String :=
  s!"Generate {framework} API routes for a web application with {database} database.\n\nFeatures to include: {ft}\n\nRequirements:\n- Use TypeScript\n- Include proper error handling\n- Add input validation\n- Use modern async/await patterns\n- Include proper HTTP status codes\n- Add middleware for authentication where needed\n\nGenerate the routes file with all necessary endpoints."

/-- The models prompt of `generateBackendCode`. -/
def backendModelsPrompt (database ft : String) : String :=
  s!"Generate {database} database models/schemas for a web application.\n\nFeatures: {ft}\n\nRequirements:\n- Use TypeScript\n- Include proper field types\n- Add relationships between models\n- Include timestamps\n- Add validation rules where appropriate\n\nGenerate the models/schema file."

/-- The middleware prompt of `generateBackendCode`. -/
def backendMiddlewarePrompt (framework ft : String) : String :=
  s!"Generate middleware functions for a {framework} application.\n\nFeatures: {ft}\n\nRequirements:\n- Use TypeScript\n- Include authentication middleware\n- Add error handling middleware\n- Include request logging\n- Add CORS configuration if needed\n\nGenerate the middleware file."

/-- The three files returned by `generateBackendCode`. -/
structure BackendCode where
  routes : String
  models : String
  middleware : String
deriving Repr, DecidableEq

/-- `generateBackendCode`: three model requests issued together via
`Promise.all`, one per prompt; if any fails the whole call becomes the
error \"Failed to generate backend code with AI\". -/
def generateBackendCode (model : String → ModelOutcome)
    (database framework : String) (features : BackendFeatures) :
    Except String BackendCode × List String :=
  let ft := featuresText features
  let routesPrompt := backendRoutesPrompt database framework ft
  let modelsPrompt := backendModelsPrompt database ft
  let middlewarePrompt := backendMiddlewarePrompt framework ft
  let issued := [routesPrompt, modelsPrompt, middlewarePrompt]
  match model routesPrompt, model modelsPrompt, model middlewarePrompt with
  | .success t1, .success t2, .success t3 =>
    (.ok { routes := textOr t1 "// Error generating routes",
           models := textOr t2 "// Error generating models",
           middleware := textOr t3 "// Error generating middleware" }, issued)
  | _, _, _ => (.error "Failed to generate backend code with AI", issued)

/-- The `'component' | 'backend'` union of `optimizeCode`. -/
inductive CodeKind
  | component
  | backend
deriving Repr, DecidableEq

/-- Text of a `CodeKind`, as spliced into the prompt. -/
def CodeKind.text : CodeKind → String
  | .component => "component"
  | .backend => "backend"

/-- The prompt template of `optimizeCode`. -/
def optimizePrompt (code : String) (kind : CodeKind) : String :=
  let kindText := kind.text
  s!"Analyze and optimize the following {kindText} code:\n\n{code}\n\nPlease provide optimized version with:\n- Better performance\n- Improved readability\n- Modern best practices\n- Proper error handling\n- Security improvements (if applicable)\n\nReturn only the optimized code, no explanations."

/-- `optimizeCode`: one model request; on a thrown call or an empty
response text the original code comes back unchanged. -/
def optimizeCode (model : String → ModelOutcome) (code : String)
    (kind : CodeKind) : String × List String :=
  let prompt := optimizePrompt code kind
  match model prompt with
  | .failure => (code, [prompt])
  | .success t => (textOr t code, [prompt])

/-- The parsed JSON object of `buildFromPrompt`: each of the six fields
is absent/falsy (`none`) or present. -/
structure ParsedSite where
  title : Option String
  description : Option String
  components : Option (List String)
  htmlCode : Option String
  cssCode : Option String
  jsCode : Option String
deriving Repr, DecidableEq

/-- The defaulted result of `buildFromPrompt`. -/
structure SiteResult where
  title : String
  description : String
  components : List String
  htmlCode : String
  cssCode : String
  jsCode : String
deriving Repr, DecidableEq

/-- The prompt template of `buildFromPrompt` (JSON braces escaped). -/
def buildPrompt (userPrompt : String) : String :=
  s!"You are an expert web developer. Based on this user request, generate a complete website structure:\n\n\"{userPrompt}\"\n\nPlease provide a JSON response with:\n1. A suitable title for the website\n2. A brief description\n3. An array of components that should be included (with their types and content)\n4. Complete HTML code for the website\n5. Complete CSS code (using Tailwind classes where possible)\n6. Any necessary JavaScript code\n\nMake the design modern, responsive, and professional. Include proper structure with header, main content, and footer where appropriate.\n\nReturn ONLY valid JSON in this exact format:\n\x7b\n  \"title\": \"Website Title\",\n  \"description\": \"Brief description\",\n  \"components\": [\x7b\"type\": \"header\", \"content\": \"...\"\x7d, \x7b\"type\": \"hero\", \"content\": \"...\"\x7d, ...],\n  \"htmlCode\": \"<!DOCTYPE html>...\",\n  \"cssCode\": \"/* CSS styles */\",\n  \"jsCode\": \"// JavaScript code\"\n\x7d"

/-- The empty-object JSON text substituted for a missing response. -/
def emptyJsonText : String := "\x7b\x7d"

/-- `buildFromPrompt`: one model request; a missing or empty response
text is parsed as the empty object; a response that fails to parse as
JSON (the `parse` oracle, standing for `JSON.parse`) becomes the error
\"Failed to generate website from prompt\"; each missing field of the
parsed object is replaced by its fixed default. -/
def buildFromPrompt (model : String → ModelOutcome)
    (parse : String → Option ParsedSite) (userPrompt : String) :
    Except String SiteResult × List String :=
  let prompt := buildPrompt userPrompt
  match model prompt with
  | .failure => (.error "Failed to generate website from prompt", [prompt])
  | .success t =>
    match parse (textOr t emptyJsonText) with
    | none => (.error "Failed to generate website from prompt", [prompt])
    | some r =>
      (.ok { title := textOr r.title "Generated Website",
             description := textOr r.description "Generated using AI",
             components := r.components.getD [],
             htmlCode := textOr r.htmlCode "<!DOCTYPE html><html><head><title>Generated Site</title></head><body><h1>Generated Content</h1></body></html>",
             cssCode := textOr r.cssCode "/* Generated styles */",
             jsCode := textOr r.jsCode "// Generated JavaScript" }, [prompt])

/-! ## Fixtures for witnesses and counterexamples -/

/-- A sample project owned by user `u1`. -/
def sampleProject : Project :=
  { id := "p1", userId := "u1", name := "Site", description := none,
    createdAt := 0, updatedAt := 0 }

/-- A sample endpoint of project `p1`. -/
def sampleEndpoint : ApiEndpoint :=
  { id := "e1", projectId := "p1", method := "GET", path := "/x",
    createdAt := 0, updatedAt := 0 }

/-- A sample datastore: one project, one endpoint. -/
def sampleDB : DB :=
  { users := [], projects := [sampleProject], apiEndpoints := [sampleEndpoint] }

/-- A body with every field absent. -/
def emptyBody : ProjectBody := { name := none, userId := none, description := none }

/-- A body whose name field is ill typed (a number). -/
def badBody : ProjectBody :=
  { name := some (.num 1), userId := none, description := none }

/-- An endpoint body whose path field is ill typed (a boolean). -/
def badEndpointBody : EndpointBody :=
  { projectId := none, method := some (.str "GET"), path := some (.boolean true) }

/-- The empty project patch. -/
def emptyPatch : ProjectPatch := { name := none, userId := none, description := none }

/-- An oracle answering every request the same way. -/
def constModel (o : ModelOutcome) : String → ModelOutcome := fun _ => o

/-- The all-absent parsed site object. -/
def emptyParsedSite : ParsedSite :=
  { title := none, description := none, components := none,
    htmlCode := none, cssCode := none, jsCode := none }

/-- A JSON-parse oracle accepting exactly the empty-object text. -/
def emptyObjectParse : String → Option ParsedSite :=
  fun s => if s = emptyJsonText then some emptyParsedSite else none

/-- Clearing the `updatedAt` timestamp of a row, to compare states up
to the update timestamp. -/
def clearUpdatedAt (p : Project) : Project := { p with updatedAt := 0 }

/-- A body that tries to claim another user's id. -/
def attackBody : ProjectBody :=
  { name := some (.str "N"), userId := some (.str "evil"), description := none }

/-- An empty endpoint body. -/
def emptyEndpointBody : EndpointBody := { projectId := none, method := none, path := none }

/-! ## Theorems -/

/-- C10: `getUserProjects` returns exactly the stored projects whose
userId equals the argument — a permutation of the filter of the
projects table — ordered by `updatedAt` descending, and a project of
any other user never appears in the result. -/
theorem getUserProjects_exactly_owned (db : DB) (userId : String) :
    List.Perm (getUserProjects db userId)
      (db.projects.filter (fun p => p.userId = userId)) ∧
    List.Sorted projGE (getUserProjects db userId) ∧
    (∀ p, p ∈ getUserProjects db userId ↔ p ∈ db.projects ∧ p.userId = userId) ∧
    (∀ p ∈ getUserProjects db userId, p.userId = userId) := by
  refine ⟨List.perm_insertionSort _ _, List.sorted_insertionSort _ _, ?_, ?_⟩
  · intro p
    rw [getUserProjects, List.mem_insertionSort, List.mem_filter]
    simp
  · intro p hp
    rw [getUserProjects, List.mem_insertionSort, List.mem_filter] at hp
    simpa using hp.2

/-- Witness for C10 at the sample datastore. -/
theorem getUserProjects_exactly_owned_witness :
    sampleProject ∈ getUserProjects sampleDB "u1" ∧ sampleProject.userId = "u1" :=
  ⟨by decide, (getUserProjects_exactly_owned sampleDB "u1").2.2.2
    sampleProject (by decide)⟩

/-- C8: the AI façade never retries: for every oracle and every input,
`generateReactComponent` and `optimizeCode` issue exactly their one
prompt, and `generateBackendCode` issues exactly its three prompts (all
started together by `Promise.all`), whatever the outcomes of the
calls. -/
theorem ai_facade_no_retry (model : String → ModelOutcome)
    (componentType framework stylePreferences database bframework code : String)
    (features : BackendFeatures) (kind : CodeKind) :
    (generateReactComponent model componentType framework stylePreferences).2 =
      [reactComponentPrompt componentType framework stylePreferences] ∧
    (generateBackendCode model database bframework features).2 =
      [backendRoutesPrompt database bframework (featuresText features),
       backendModelsPrompt database (featuresText features),
       backendMiddlewarePrompt bframework (featuresText features)] ∧
    (optimizeCode model code kind).2 = [optimizePrompt code kind] := by
  refine ⟨?_, ?_, ?_⟩
  · cases h : model (reactComponentPrompt componentType framework stylePreferences) <;>
      simp [generateReactComponent, h]
  · cases h1 : model (backendRoutesPrompt database bframework (featuresText features)) <;>
    cases h2 : model (backendModelsPrompt database (featuresText features)) <;>
    cases h3 : model (backendMiddlewarePrompt bframework (featuresText features)) <;>
      simp [generateBackendCode, h1, h2, h3]
  · cases h : model (optimizePrompt code kind) <;> simp [optimizeCode, h]

/-- Filtering twice with one predicate is filtering once. -/
theorem filter_idem {α : Type} (p : α → Bool) (l : List α) :
    (l.filter p).filter p = l.filter p :=
  List.filter_eq_self.mpr (fun _ ha => List.of_mem_filter ha)

/-- The datastore produced by `updateProject`, spelled out. -/
theorem updateProject_db (db : DB) (id : String) (u : ProjectPatch) (now : Nat) :
    (updateProject db id u now).2 =
      { db with projects := db.projects.map (fun p =>
          if p.id = id then applyPatch p u now else p) } := rfl

/-- The patch set-clause preserves the row id. -/
theorem applyPatch_id (p : Project) (u : ProjectPatch) (now : Nat) :
    (applyPatch p u now).id = p.id := rfl

/-- Applying the same patch twice is the same as applying it once at
the later time. -/
theorem applyPatch_applyPatch (p : Project) (u : ProjectPatch) (n1 n2 : Nat) :
    applyPatch (applyPatch p u n1) u n2 = applyPatch p u n2 := by
  cases hn : u.name <;> cases hu : u.userId <;> cases hd : u.description <;>
    simp [applyPatch, hn, hu, hd]

/-- Up to the `updatedAt` timestamp, the patched row does not depend on
the patch time. -/
theorem clearUpdatedAt_applyPatch (p : Project) (u : ProjectPatch) (n1 n2 : Nat) :
    clearUpdatedAt (applyPatch p u n1) = clearUpdatedAt (applyPatch p u n2) := rfl

/-- C2: every storage operation touches rows of exactly one table —
each write leaves the other two tables unchanged and each read depends
only on its own table; in particular `deleteProject` leaves the
`apiEndpoints` and `users` tables unchanged, so a deleted project's
endpoints remain stored. -/
theorem storage_single_table_frame (db db2 : DB) (data : UpsertUser)
    (ip : InsertProject) (pp : ProjectPatch) (ie : InsertApiEndpoint)
    (ep : EndpointPatch) (id newId uid : String) (now : Nat) :
    ((upsertUser db data now).projects = db.projects ∧
     (upsertUser db data now).apiEndpoints = db.apiEndpoints) ∧
    ((createProject db ip newId now).2.users = db.users ∧
     (createProject db ip newId now).2.apiEndpoints = db.apiEndpoints) ∧
    ((updateProject db id pp now).2.users = db.users ∧
     (updateProject db id pp now).2.apiEndpoints = db.apiEndpoints) ∧
    ((deleteProject db id).users = db.users ∧
     (deleteProject db id).apiEndpoints = db.apiEndpoints) ∧
    ((createApiEndpoint db ie newId now).2.users = db.users ∧
     (createApiEndpoint db ie newId now).2.projects = db.projects) ∧
    ((updateApiEndpoint db id ep now).2.users = db.users ∧
     (updateApiEndpoint db id ep now).2.projects = db.projects) ∧
    ((deleteApiEndpoint db id).users = db.users ∧
     (deleteApiEndpoint db id).projects = db.projects) ∧
    (db.users = db2.users → getUser db id = getUser db2 id) ∧
    (db.projects = db2.projects →
      getUserProjects db uid = getUserProjects db2 uid ∧
      getProject db id = getProject db2 id) ∧
    (db.apiEndpoints = db2.apiEndpoints →
      getProjectEndpoints db id = getProjectEndpoints db2 id) ∧
    (∀ e ∈ db.apiEndpoints, e ∈ (deleteProject db id).apiEndpoints) := by
  refine ⟨⟨?_, ?_⟩, ⟨rfl, rfl⟩, ⟨rfl, rfl⟩, ⟨rfl, rfl⟩, ⟨rfl, rfl⟩, ⟨rfl, rfl⟩,
    ⟨rfl, rfl⟩, ?_, ?_, ?_, ?_⟩
  · unfold upsertUser; split <;> rfl
  · unfold upsertUser; split <;> rfl
  · intro h; unfold getUser; rw [h]
  · intro h
    exact ⟨by unfold getUserProjects; rw [h], by unfold getProject; rw [h]⟩
  · intro h; unfold getProjectEndpoints; rw [h]
  · intro e he; exact he

/-- Witness for C2: the sample endpoint survives deleting its project,
and a read of `users` only looks at `users`. -/
theorem storage_single_table_frame_witness :
    (sampleEndpoint ∈ sampleDB.apiEndpoints ∧
      sampleEndpoint ∈ (deleteProject sampleDB "p1").apiEndpoints) ∧
    getUser sampleDB "u1" = getUser sampleDB "u1" :=
  ⟨⟨by decide,
    (storage_single_table_frame sampleDB sampleDB ⟨"u1", none⟩ ⟨"n", "u1", none⟩
      emptyPatch ⟨"p1", "GET", "/x"⟩ ⟨none, none, none⟩ "p1" "p2" "u1"
      0).2.2.2.2.2.2.2.2.2.2 sampleEndpoint (by decide)⟩,
   (storage_single_table_frame sampleDB sampleDB ⟨"u1", none⟩ ⟨"n", "u1", none⟩
      emptyPatch ⟨"p1", "GET", "/x"⟩ ⟨none, none, none⟩ "u1" "p2" "u1"
      0).2.2.2.2.2.2.2.1 rfl⟩

/-- C4 counterexample: at the sample datastore, running `updateProject`
twice (the second call carrying a later `new Date()`) leaves a state
different from running it once: the stored `updatedAt` is 1 instead of
0. -/
theorem update_twice_differs_counterexample :
    decide ((updateProject (updateProject sampleDB "p1" emptyPatch 0).2
        "p1" emptyPatch 1).2 = (updateProject sampleDB "p1" emptyPatch 0).2)
      = false ∧
    (updateProject (updateProject sampleDB "p1" emptyPatch 0).2
        "p1" emptyPatch 1).2.projects.map Project.updatedAt = [1] ∧
    (updateProject sampleDB "p1" emptyPatch 0).2.projects.map
        Project.updatedAt = [0] := by
  decide

/-- C4 amended: `deleteProject` is idempotent; `updateProject` applied
twice with the same clock value is idempotent, and in general a second
application of the same patch changes the stored projects only in the
`updatedAt` timestamp. -/
theorem delete_update_idempotent_amended (db : DB) (id : String)
    (u : ProjectPatch) (now now2 : Nat) :
    deleteProject (deleteProject db id) id = deleteProject db id ∧
    (updateProject (updateProject db id u now).2 id u now).2 =
      (updateProject db id u now).2 ∧
    (updateProject (updateProject db id u now).2 id u now2).2.projects.map
        clearUpdatedAt =
      (updateProject db id u now).2.projects.map clearUpdatedAt := by
  refine ⟨?_, ?_, ?_⟩
  · unfold deleteProject
    dsimp only
    congr 1
    exact filter_idem _ _
  · simp only [updateProject_db]
    congr 1
    rw [List.map_map]
    apply List.map_congr_left
    intro a _
    by_cases h : a.id = id
    · simp [Function.comp, h, applyPatch_id, applyPatch_applyPatch]
    · simp [Function.comp, h]
  · simp only [updateProject_db]
    rw [List.map_map, List.map_map, List.map_map]
    apply List.map_congr_left
    intro a _
    by_cases h : a.id = id
    · simp only [Function.comp, h, if_pos, applyPatch_id, if_true]
      rw [applyPatch_applyPatch]
      exact clearUpdatedAt_applyPatch a u now2 now
    · simp [Function.comp, h]

/-- C1: on GET, PUT and DELETE /api/projects/:id and on GET and POST
/api/projects/:projectId/endpoints, when the referenced project exists
but belongs to another user, the handler answers 403 with message
"Access denied", leaves the datastore unchanged, and its only storage
call is the `getProject` read — no mutation and no read of the
project's endpoints. -/
theorem ownership_check_denies (u id : String) (db : DB) (p : Project)
    (body : ProjectBody) (ebody : EndpointBody) (newId : String) (now : Nat)
    (hp : getProject db id = some p) (hne : p.userId ≠ u) :
    ApiResponse.status .accessDenied = 403 ∧
    ApiResponse.message .accessDenied = some "Access denied" ∧
    getProjectHandler u id db = ⟨.accessDenied, db, [.opGetProject id]⟩ ∧
    putProjectHandler u id body now db = ⟨.accessDenied, db, [.opGetProject id]⟩ ∧
    deleteProjectHandler u id db = ⟨.accessDenied, db, [.opGetProject id]⟩ ∧
    getEndpointsHandler u id db = ⟨.accessDenied, db, [.opGetProject id]⟩ ∧
    postEndpointHandler u id ebody newId now db =
      ⟨.accessDenied, db, [.opGetProject id]⟩ := by
  refine ⟨rfl, rfl, ?_, ?_, ?_, ?_, ?_⟩ <;>
    simp [getProjectHandler, putProjectHandler, deleteProjectHandler,
      getEndpointsHandler, postEndpointHandler, hp, hne]

/-- Witness for C1: user `bob` is denied access to `u1`'s project. -/
theorem ownership_check_denies_witness :
    getProject sampleDB "p1" = some sampleProject ∧
    decide (sampleProject.userId = "bob") = false ∧
    getProjectHandler "bob" "p1" sampleDB =
      ⟨.accessDenied, sampleDB, [.opGetProject "p1"]⟩ :=
  ⟨by decide, by decide,
   (ownership_check_denies "bob" "p1" sampleDB sampleProject emptyBody
      emptyEndpointBody "e2" 0 (by decide) (by decide)).2.2.1⟩

/-- A successful insert-schema parse carries the userId of its
input. -/
theorem parseInsertProject_userId (b : ProjectBody) (pd : InsertProject)
    (h : parseInsertProject b = some pd) : reqStr b.userId = some pd.userId := by
  unfold parseInsertProject at h
  cases hn : reqStr b.name <;> rw [hn] at h <;>
  cases hu : reqStr b.userId <;> rw [hu] at h <;>
  cases hd : optStr b.description <;> rw [hd] at h
  all_goals try exact Option.noConfusion h
  rw [← Option.some_inj.mp h]

/-- C3: POST /api/projects stores the session user as owner: the spread
overrides any client-supplied userId with the session id before
validation, a successful parse carries that id, and every project in
the post-state either pre-existed or is owned by the session user. -/
theorem created_project_owned_by_session (u : String) (body : ProjectBody)
    (newId : String) (now : Nat) (db : DB) :
    (withSessionUser body u).userId = some (JsonValue.str u) ∧
    (∀ pd, parseInsertProject (withSessionUser body u) = some pd →
      pd.userId = u) ∧
    (∀ p ∈ (postProjectHandler u body newId now db).db.projects,
      p ∈ db.projects ∨ p.userId = u) := by
  refine ⟨rfl, ?_, ?_⟩
  · intro pd h
    have hu := parseInsertProject_userId _ _ h
    have hr : reqStr (withSessionUser body u).userId = some u := rfl
    rw [hr] at hu
    exact (Option.some_inj.mp hu).symm
  · intro p hp
    unfold postProjectHandler at hp
    cases hparse : parseInsertProject (withSessionUser body u) with
    | none => rw [hparse] at hp; exact Or.inl hp
    | some pd =>
      rw [hparse] at hp
      simp only [createProject, List.mem_append, List.mem_singleton] at hp
      rcases hp with h | h
      · exact Or.inl h
      · right
        have hu := parseInsertProject_userId _ _ hparse
        have hr : reqStr (withSessionUser body u).userId = some u := rfl
        rw [hr] at hu
        rw [h]
        exact (Option.some_inj.mp hu).symm

/-- Witness for C3: a body claiming userId `evil` is stored with the
session user `u1` as owner. -/
theorem created_project_owned_by_session_witness :
    parseInsertProject (withSessionUser attackBody "u1") =
      some { name := "N", userId := "u1", description := none } ∧
    ({ name := "N", userId := "u1", description := none } : InsertProject).userId
      = "u1" :=
  ⟨by decide,
   (created_project_owned_by_session "u1" attackBody "p9" 5 sampleDB).2.1
     { name := "N", userId := "u1", description := none } (by decide)⟩

/-- C5: when the body fails its insert schema, POST /api/projects, PUT
/api/projects/:id and POST /api/projects/:projectId/endpoints answer
400 (a ZodError) and the datastore is unchanged — nothing is created or
modified. -/
theorem invalid_body_rejected (u id pid : String) (body : ProjectBody)
    (ebody : EndpointBody) (newId : String) (now : Nat) (db : DB)
    (h1 : parseInsertProject (withSessionUser body u) = none)
    (h2 : parseProjectPatch body = none)
    (h3 : parseInsertApiEndpoint (withRouteProjectId ebody pid) = none) :
    postProjectHandler u body newId now db =
      ⟨.badRequest "Invalid project data", db, []⟩ ∧
    (putProjectHandler u id body now db).db = db ∧
    (∀ p, getProject db id = some p → p.userId = u →
      putProjectHandler u id body now db =
        ⟨.badRequest "Invalid project data", db, [.opGetProject id]⟩) ∧
    (postEndpointHandler u pid ebody newId now db).db = db ∧
    (∀ q, getProject db pid = some q → q.userId = u →
      postEndpointHandler u pid ebody newId now db =
        ⟨.badRequest "Invalid endpoint data", db, [.opGetProject pid]⟩) := by
  refine ⟨?_, ?_, ?_, ?_, ?_⟩
  · simp [postProjectHandler, h1]
  · cases hp : getProject db id with
    | none => simp [putProjectHandler, hp]
    | some p =>
      by_cases ho : p.userId = u
      · simp [putProjectHandler, hp, ho, h2]
      · simp [putProjectHandler, hp, ho]
  · intro p hp ho
    simp [putProjectHandler, hp, ho, h2]
  · cases hp : getProject db pid with
    | none => simp [postEndpointHandler, hp]
    | some q =>
      by_cases ho : q.userId = u
      · simp [postEndpointHandler, hp, ho, h3]
      · simp [postEndpointHandler, hp, ho]
  · intro q hq ho
    simp [postEndpointHandler, hq, ho, h3]

/-- Witness for C5: an ill-typed name field is rejected with 400 and
the sample datastore is untouched, for create and for update. -/
theorem invalid_body_rejected_witness :
    postProjectHandler "u1" badBody "p9" 0 sampleDB =
      ⟨.badRequest "Invalid project data", sampleDB, []⟩ ∧
    putProjectHandler "u1" "p1" badBody 0 sampleDB =
      ⟨.badRequest "Invalid project data", sampleDB, [.opGetProject "p1"]⟩ :=
  ⟨(invalid_body_rejected "u1" "p1" "p1" badBody badEndpointBody "p9" 0 sampleDB
      (by decide) (by decide) (by decide)).1,
   (invalid_body_rejected "u1" "p1" "p1" badBody badEndpointBody "p9" 0 sampleDB
      (by decide) (by decide) (by decide)).2.2.1 sampleProject (by decide) (by decide)⟩

/-- C6 counterexample: the complete list of PUT and DELETE routes
installed by `registerRoutes` holds only the two project routes — the
API endpoint entity has no update and no delete handler, contrary to
one handler per CRUD verb per entity. -/
theorem crud_per_entity_counterexample :
    registeredRoutes.filter
        (fun r => decide (r.1 = Method.PUT) || decide (r.1 = Method.DELETE)) =
      [(Method.PUT, "/api/projects/:id"), (Method.DELETE, "/api/projects/:id")] := by
  decide

/-- C6 amended: `registerRoutes` installs create, read, update and
delete handlers for the project entity, but only create and read
handlers for the API endpoint entity; exactly two PUT/DELETE routes
exist, both for projects. -/
theorem crud_handlers_amended :
    (Method.GET, "/api/projects") ∈ registeredRoutes ∧
    (Method.GET, "/api/projects/:id") ∈ registeredRoutes ∧
    (Method.POST, "/api/projects") ∈ registeredRoutes ∧
    (Method.PUT, "/api/projects/:id") ∈ registeredRoutes ∧
    (Method.DELETE, "/api/projects/:id") ∈ registeredRoutes ∧
    (Method.GET, "/api/projects/:projectId/endpoints") ∈ registeredRoutes ∧
    (Method.POST, "/api/projects/:projectId/endpoints") ∈ registeredRoutes ∧
    (registeredRoutes.filter (fun r =>
        decide (r.1 = Method.PUT) || decide (r.1 = Method.DELETE))).length = 2 := by
  decide

/-- C7: `buildFromPrompt` validates the model response by a best-effort
JSON parse only: a thrown call yields the error "Failed to generate
website from prompt"; a missing or empty response text is parsed as the
empty object and yields the six fixed defaults; present text that fails
to parse yields the same error; and a parsed object is returned with
each missing field replaced by its fixed default, with no further
validation. -/
theorem buildFromPrompt_best_effort (model : String → ModelOutcome)
    (parse : String → Option ParsedSite) (userPrompt : String) :
    (model (buildPrompt userPrompt) = .failure →
      (buildFromPrompt model parse userPrompt).1 =
        .error "Failed to generate website from prompt") ∧
    ((model (buildPrompt userPrompt) = .success none ∨
        model (buildPrompt userPrompt) = .success (some "")) →
      parse emptyJsonText = some emptyParsedSite →
      (buildFromPrompt model parse userPrompt).1 =
        .ok { title := "Generated Website", description := "Generated using AI",
              components := [],
              htmlCode := "<!DOCTYPE html><html><head><title>Generated Site</title></head><body><h1>Generated Content</h1></body></html>",
              cssCode := "/* Generated styles */",
              jsCode := "// Generated JavaScript" }) ∧
    (∀ t, model (buildPrompt userPrompt) = .success t →
      parse (textOr t emptyJsonText) = none →
      (buildFromPrompt model parse userPrompt).1 =
        .error "Failed to generate website from prompt") ∧
    (∀ t r, model (buildPrompt userPrompt) = .success t →
      parse (textOr t emptyJsonText) = some r →
      (buildFromPrompt model parse userPrompt).1 =
        .ok { title := textOr r.title "Generated Website",
              description := textOr r.description "Generated using AI",
              components := r.components.getD [],
              htmlCode := textOr r.htmlCode "<!DOCTYPE html><html><head><title>Generated Site</title></head><body><h1>Generated Content</h1></body></html>",
              cssCode := textOr r.cssCode "/* Generated styles */",
              jsCode := textOr r.jsCode "// Generated JavaScript" }) := by
  refine ⟨?_, ?_, ?_, ?_⟩
  · intro h
    simp [buildFromPrompt, h]
  · rintro (h | h) hp <;>
      simp [buildFromPrompt, h, textOr, hp, emptyParsedSite]
  · intro t h hp
    simp [buildFromPrompt, h, hp]
  · intro t r h hp
    simp [buildFromPrompt, h, hp]

/-- Witness for C7: a response with no text at all produces the
all-defaults site. -/
theorem buildFromPrompt_best_effort_witness :
    (buildFromPrompt (constModel (.success none)) emptyObjectParse "site").1 =
      .ok { title := "Generated Website", description := "Generated using AI",
            components := [],
            htmlCode := "<!DOCTYPE html><html><head><title>Generated Site</title></head><body><h1>Generated Content</h1></body></html>",
            cssCode := "/* Generated styles */",
            jsCode := "// Generated JavaScript" } :=
  (buildFromPrompt_best_effort (constModel (.success none)) emptyObjectParse
    "site").2.1 (Or.inl rfl) (by decide)

/-- C9: `optimizeCode` never throws and never loses the input: a thrown
call or an absent or empty response text returns the original code
unchanged, and a non-empty response text is returned as is. -/
theorem optimizeCode_preserves_input (model : String → ModelOutcome)
    (code : String) (kind : CodeKind) :
    (model (optimizePrompt code kind) = .failure →
      (optimizeCode model code kind).1 = code) ∧
    ((model (optimizePrompt code kind) = .success none ∨
        model (optimizePrompt code kind) = .success (some "")) →
      (optimizeCode model code kind).1 = code) ∧
    (∀ s, model (optimizePrompt code kind) = .success (some s) → s ≠ "" →
      (optimizeCode model code kind).1 = s) := by
  refine ⟨?_, ?_, ?_⟩
  · intro h
    simp [optimizeCode, h]
  · rintro (h | h) <;> simp [optimizeCode, h, textOr]
  · intro s h hs
    simp [optimizeCode, h, textOr, hs]

/-- Witness for C9: a failing model call returns the input code. -/
theorem optimizeCode_preserves_input_witness :
    (optimizeCode (constModel .failure) "const x = 1" CodeKind.component).1 =
      "const x = 1" :=
  (optimizeCode_preserves_input (constModel .failure) "const x = 1"
    CodeKind.component).1 rfl
